import Mathlib

/-!
Shallow embedding of the AgentVine TypeScript SDK client (`src/client.ts`,
`src/types.ts`).  The client is a thin HTTP wrapper: it resolves a base URL
from its configuration, issues authenticated JSON POST requests with a
timeout guard, classifies failures by message substrings, and (in the
health-checking variant) maintains a connectivity state updated by an
asynchronous verification and a periodic background probe.

Strings are modelled as Lean `String`; JavaScript's `String.prototype.includes`
is modelled by an executable substring test.  JSON bodies are modelled by a
small `Json` inductive with JavaScript truthiness.  Effects that matter to the
claims (arming/clearing the abort timer, passing the abort signal to fetch,
starting background tasks) are modelled as explicit action traces.
-/

namespace AgentVine

/-! ## String containment (JS `String.prototype.includes`) -/

/-- Does the list start with the given pattern? -/
def startsWithList : List Char → List Char → Bool
  | _, [] => true
  | [], _ :: _ => false
  | a :: as, b :: bs => a = b && startsWithList as bs

/-- Does the list contain the pattern as a contiguous sublist? -/
def containsList : List Char → List Char → Bool
  | [], sub => startsWithList [] sub
  | a :: as, sub => startsWithList (a :: as) sub || containsList as sub

/-- JavaScript `s.includes(sub)` on the character data of the strings. -/
def strContains (s sub : String) : Bool :=
  containsList s.data sub.data

/-! ## JSON values and JavaScript coercions -/

/-- Parsed JSON value, as produced by `response.json()`. -/
inductive Json where
  | null : Json
  | bool (b : Bool) : Json
  | num (n : Int) : Json
  | str (s : String) : Json
  | arr (elems : List Json) : Json
  | obj (fields : List (String × Json)) : Json

/-- Field lookup in a JSON object's field list (first match). -/
def lookupField : List (String × Json) → String → Option Json
  | [], _ => none
  | (k, v) :: rest, key => if k = key then some v else lookupField rest key

/-- JavaScript property access `j[key]`: a field of an object, `undefined`
(here `none`) otherwise. -/
def Json.getField : Json → String → Option Json
  | .obj fields, key => lookupField fields key
  | _, _ => none

/-- JavaScript truthiness of a JSON value. -/
def jsTruthy : Json → Bool
  | .null => false
  | .bool b => b
  | .num n => n != 0
  | .str s => !(s = "")
  | .arr _ => true
  | .obj _ => true

mutual

/-- JavaScript `String(v)` coercion of a JSON value. -/
def jsToString : Json → String
  | .null => "null"
  | .bool true => "true"
  | .bool false => "false"
  | .num n => toString n
  | .str s => s
  | .arr elems => String.intercalate "," (jsToStringList elems)
  | .obj _ => "[object Object]"

/-- String coercions of a list of JSON values. -/
def jsToStringList : List Json → List String
  | [] => []
  | j :: js => jsToString j :: jsToStringList js

end

/-- JavaScript `v || dflt` coerced to a string, for an optional field value:
absent or falsy yields the default, a truthy value is coerced by `String()`. -/
def jsOrString (v : Option Json) (dflt : String) : String :=
  match v with
  | some j => if jsTruthy j then jsToString j else dflt
  | none => dflt

/-! ## Data model (src/types.ts)

`AgentVineConfig`: optional fields are `Option`s; the two user callbacks are
modelled by presence flags (whether the configuration supplies them), since
the claims only concern whether they are invoked.  The `environment` union
type is modelled as an optional string, matching the runtime `switch`. -/

structure AgentVineConfig where
  agentId : String
  agentSecretKey : String
  baseUrl : Option String := none
  environment : Option String := none
  timeout : Option Nat := none
  autoVerify : Option Bool := none
  onConnectionVerified : Bool := false
  onConnectionFailed : Bool := false

/-- Structured SDK error (`SDKError` in src/types.ts).  The opaque `details`
payload (the underlying cause, kept verbatim for diagnostics) is not
modelled: no claim inspects it. -/
structure SDKError where
  code : String
  message : String
deriving DecidableEq, Repr

/-- A thrown JavaScript error, reduced to the two properties the client
inspects: its `name` and its `message`. -/
structure JsError where
  name : String
  message : String
deriving DecidableEq, Repr

/-- An HTTP response as seen through `cross-fetch`: status line plus the
parsed JSON body.  `ok` is derived from the status as fetch defines it. -/
structure Response where
  status : Nat
  statusText : String
  body : Json

/-- The fetch `Response.ok` flag: status in the 2xx range. -/
def Response.okFlag (r : Response) : Bool :=
  decide (200 ≤ r.status) && decide (r.status < 300)

/-- Outcome of the underlying `fetch` call: a response, or a thrown error
(an `AbortError` when the cancellation signal fired first). -/
inductive FetchResult where
  | ok (r : Response)
  | err (e : JsError)

/-! ## Error classification (client.ts, handleError) -/

/-- The `handleError(error, context)` method, taking the caught error's
message (`error instanceof Error ? error.message : String(error)`).  It
builds the structured error with the generic code and the message
`context + ": " + (errorMessage || "Unknown error")`, then refines the code
by substring inspection in source order. -/
def handleError (errMsg ctx : String) : SDKError :=
  let message := ctx ++ ": " ++ (if errMsg = "" then "Unknown error" else errMsg)
  let code :=
    if strContains errMsg "timeout" then "TIMEOUT_ERROR"
    else if strContains errMsg "401" || strContains errMsg "Unauthorized" then "AUTH_ERROR"
    else if strContains errMsg "network" || strContains errMsg "fetch" then "NETWORK_ERROR"
    else "AGENTVINE_ERROR"
  { code := code, message := message }

/-! ## Request transport (client.ts, makeRequest) -/

/-- The effective timeout: `config.timeout || 10000`.  A configured value of
0 (falsy) falls back to the 10000 ms default, like an absent one. -/
def effectiveTimeout (cfg : AgentVineConfig) : Nat :=
  match cfg.timeout with
  | some t => if t = 0 then 10000 else t
  | none => 10000

/-- Observable side effects of `makeRequest`, in order: arming the abort
timer (`setTimeout(() => controller.abort(), timeout)`), issuing the fetch
(recording whether the controller's abort signal was passed in the request
options), and disarming the timer (`clearTimeout(timeoutId)`). -/
inductive TransportAction where
  | armTimer (ms : Nat)
  | fetchStart (signalArmed : Bool)
  | clearTimer
deriving DecidableEq, Repr

/-- JavaScript object-key assignment on an association list: an existing key
is updated in place, a new key is appended.  Spreading `{...a, ...b}` is a
fold of these assignments of `b`'s entries over `a`. -/
def objSet : List (String × String) → String → String → List (String × String)
  | [], k, v => [(k, v)]
  | (k0, v0) :: rest, k, v =>
    if k0 = k then (k, v) :: rest else (k0, v0) :: objSet rest k v

/-- Key lookup in a header object (first match). -/
def lookupHeader : List (String × String) → String → Option String
  | [], _ => none
  | (k0, v0) :: rest, k => if k0 = k then some v0 else lookupHeader rest k

/-- The header object passed to fetch by `makeRequest`: the JSON content
type and the two credential headers, spread-merged with the caller's
`options.headers` (later keys override, object-literal style). -/
def makeRequestHeaders (cfg : AgentVineConfig)
    (callerHeaders : List (String × String)) : List (String × String) :=
  callerHeaders.foldl (fun o kv => objSet o kv.1 kv.2)
    [("Content-Type", "application/json"),
     ("X-Agent-Id", cfg.agentId),
     ("X-Agent-Secret-Key", cfg.agentSecretKey)]

/-- The `makeRequest` method: arms the abort timer for the effective
timeout, performs the fetch with the abort signal, disarms the timer on
both the success and the failure path, and rewrites an `AbortError` into
`Error("Request timeout after <timeout>ms")`; any other thrown error is
rethrown unchanged.  Returns the action trace alongside the outcome. -/
def makeRequest (cfg : AgentVineConfig) (fr : FetchResult) :
    List TransportAction × Except JsError Response :=
  let timeout := effectiveTimeout cfg
  let trace := [TransportAction.armTimer timeout,
                TransportAction.fetchStart true,
                TransportAction.clearTimer]
  match fr with
  | .ok r => (trace, .ok r)
  | .err e =>
    (trace,
     if e.name = "AbortError" then
       .error { name := "Error",
                message := "Request timeout after " ++ toString timeout ++ "ms" }
     else .error e)

/-! ## Request methods (client.ts, getOffers / testConnection) -/

/-- The error message read from a non-ok response body:
`error.error || "HTTP <status>: <statusText>"` (JS falsy fallback on the
`error` field of the parsed JSON error body). -/
def errBodyMessage (body : Json) (status : Nat) (statusText : String) : String :=
  jsOrString (body.getField "error")
    ("HTTP " ++ toString status ++ ": " ++ statusText)

/-- Shared body of `getOffers` and `testConnection`: awaits `makeRequest`,
throws the error-body message on a non-ok status, returns the parsed JSON
body unchanged on success; every thrown error is caught and rethrown as
`handleError(error, ctx)`. -/
def requestMethod (cfg : AgentVineConfig) (ctx : String) (fr : FetchResult) :
    Except SDKError Json :=
  match (makeRequest cfg fr).2 with
  | .error e => .error (handleError e.message ctx)
  | .ok resp =>
    if resp.okFlag then .ok resp.body
    else .error (handleError
      (errBodyMessage resp.body resp.status resp.statusText) ctx)

/-- `getOffers`: POSTs to the offers endpoint and handles the response with
the context label "Failed to get offers". -/
def getOffers (cfg : AgentVineConfig) (fr : FetchResult) : Except SDKError Json :=
  requestMethod cfg "Failed to get offers" fr

/-- `testConnection`: POSTs to the self-test endpoint and handles the
response with the context label "Connection test failed". -/
def testConnection (cfg : AgentVineConfig) (fr : FetchResult) : Except SDKError Json :=
  requestMethod cfg "Connection test failed" fr

/-! ## Construction (client.ts, constructor) -/

/-- The constructor's `switch (config.environment)`: cases `local` and
`development`, with `production` and the default both mapping to the
production host. -/
def environmentBaseUrl : Option String → String
  | some e =>
    if e = "local" then "http://localhost:3001"
    else if e = "development" then "https://dev-api.agentvine.dev"
    else "https://api.agentvine.dev"
  | none => "https://api.agentvine.dev"

/-- Base URL resolution from the constructor: `if (config.baseUrl)` (JS
truthiness, so an absent or empty string falls through) selects the explicit
URL, otherwise the environment switch decides. -/
def resolveBaseUrl (cfg : AgentVineConfig) : String :=
  match cfg.baseUrl with
  | some u => if u = "" then environmentBaseUrl cfg.environment else u
  | none => environmentBaseUrl cfg.environment

/-- Background activity started by the health-checking constructor after the
credential check passes: the fire-and-forget verification (unless
`autoVerify === false`) and the periodic health-check timer. -/
inductive StartupAction where
  | verifyStart
  | healthCheckStart
deriving DecidableEq, Repr

/-- The health-checking constructor: resolves the base URL, then throws if
`!config.agentId || !config.agentSecretKey` (JS falsiness of strings:
empty), and only past that check starts the verification and the periodic
health check.  Returns the startup action trace and the outcome. -/
def constructClient (cfg : AgentVineConfig) :
    List StartupAction × Except String String :=
  let baseUrl := resolveBaseUrl cfg
  if cfg.agentId = "" || cfg.agentSecretKey = "" then
    ([], .error "AgentVine SDK: agentId and agentSecretKey are required")
  else
    ((if cfg.autoVerify = some false then [] else [StartupAction.verifyStart])
       ++ [StartupAction.healthCheckStart],
     .ok baseUrl)

/-- The plain-variant constructor: same base URL resolution and credential
check, no background activity at all. -/
def constructClientPlain (cfg : AgentVineConfig) : Except String String :=
  let baseUrl := resolveBaseUrl cfg
  if cfg.agentId = "" || cfg.agentSecretKey = "" then
    .error "AgentVine SDK: agentId and agentSecretKey are required"
  else .ok baseUrl

/-! ## Connectivity state (health-checking variant) -/

/-- The mutable fields of the health-checking client: the connectivity
state, the stored periodic-timer handle, and whether the one-shot initial
probe scheduled by `startHealthCheck` (a `setTimeout` whose handle is never
stored) is still pending. -/
structure ClientState where
  isConnected : Bool
  connectionError : Option SDKError
  agent : Option Json
  lastHealthCheck : Option Nat
  healthCheckInterval : Option Nat
  initialProbePending : Bool

/-- Which of the two configured callbacks an operation invoked. -/
structure CallbackCalls where
  verified : Bool
  failed : Bool
deriving DecidableEq, Repr

/-- The catch block of `verifyConnection`: marks the client disconnected and
records `CONNECTION_FAILED` with `error.message || "Failed to verify agent
credentials"`, then invokes the failure callback if configured. -/
def verifyCatch (cfg : AgentVineConfig) (st : ClientState) (errMsg : String) :
    ClientState × CallbackCalls :=
  ({ st with
      isConnected := false,
      connectionError := some
        { code := "CONNECTION_FAILED",
          message := if errMsg = "" then "Failed to verify agent credentials" else errMsg } },
   { verified := false, failed := cfg.onConnectionFailed })

/-- `verifyConnection`, as a function of the outcome of its
`testConnection()` call.  On success with a truthy `success` and `agent`,
it records connected state, stores the agent, clears the error and invokes
the success callback; otherwise it throws
`Error(result.message || "Connection verification failed")` into its own
catch; a rejection of `testConnection` lands in the catch with the thrown
structured error's message.  The catch never rethrows. -/
def verifyConnection (cfg : AgentVineConfig) (st : ClientState)
    (tc : Except SDKError Json) : ClientState × CallbackCalls :=
  match tc with
  | .ok body =>
    if jsTruthy ((body.getField "success").getD .null)
        && jsTruthy ((body.getField "agent").getD .null) then
      ({ st with
          isConnected := true,
          agent := body.getField "agent",
          connectionError := none },
       { verified := cfg.onConnectionVerified, failed := false })
    else
      verifyCatch cfg st
        (jsOrString (body.getField "message") "Connection verification failed")
  | .error e => verifyCatch cfg st e.message

/-- `performHealthCheck`, as a function of the fetch outcome and the current
time: on an ok response it marks connected, clears the error, stamps
`lastHealthCheck`, and refreshes the stored agent if the body carries a
truthy one; on a non-ok response it records `HEALTH_CHECK_FAILED`; on a
thrown error it records `HEALTH_CHECK_ERROR` silently. -/
def performHealthCheck (cfg : AgentVineConfig) (st : ClientState)
    (now : Nat) (fr : FetchResult) : ClientState :=
  match (makeRequest cfg fr).2 with
  | .ok resp =>
    if resp.okFlag then
      { st with
          isConnected := true,
          connectionError := none,
          lastHealthCheck := some now,
          agent := if jsTruthy ((resp.body.getField "agent").getD .null) then
                     resp.body.getField "agent"
                   else st.agent }
    else
      { st with
          isConnected := false,
          connectionError := some
            { code := "HEALTH_CHECK_FAILED",
              message := "Background health check failed" } }
  | .error e =>
    { st with
        isConnected := false,
        connectionError := some
          { code := "HEALTH_CHECK_ERROR",
            message := if e.message = "" then "Health check error" else e.message } }

/-- `destroy()`: clears the periodic timer when one is stored, and nulls the
handle; does nothing otherwise.  The one-shot initial probe's handle was
never stored, so it is untouched. -/
def destroy (st : ClientState) : ClientState :=
  match st.healthCheckInterval with
  | some _ => { st with healthCheckInterval := none }
  | none => st

/-- Background events that can reach the client after construction: a tick
of the periodic timer, the firing of the one-shot initial probe, and a
`destroy()` call.  Timer events carry the fetch outcome and the current
time of the probe they trigger. -/
inductive ClientEvent where
  | intervalTick (now : Nat) (fr : FetchResult)
  | initialProbeFire (now : Nat) (fr : FetchResult)
  | destroyCall

/-- One step of the client's background behaviour: a periodic tick runs the
health check only while the interval timer is armed; the one-shot initial
probe runs once whenever still pending, whether or not `destroy` already
ran; `destroy` clears the interval timer. -/
def clientStep (cfg : AgentVineConfig) (st : ClientState) :
    ClientEvent → ClientState
  | .intervalTick now fr =>
    match st.healthCheckInterval with
    | some _ => performHealthCheck cfg st now fr
    | none => st
  | .initialProbeFire now fr =>
    if st.initialProbePending then
      performHealthCheck cfg { st with initialProbePending := false } now fr
    else st
  | .destroyCall => destroy st

/-! ## Lemmas about substring containment -/

theorem startsWithList_nil (l : List Char) : startsWithList l [] = true := by
  cases l <;> rfl

theorem containsList_nil (l : List Char) : containsList l [] = true := by
  cases l <;> simp [containsList, startsWithList_nil]

theorem startsWithList_self_append (sub t : List Char) :
    startsWithList (sub ++ t) sub = true := by
  induction sub with
  | nil => exact startsWithList_nil t
  | cons a as ih => simp [startsWithList, ih]

theorem containsList_of_startsWithList {s sub : List Char}
    (h : startsWithList s sub = true) : containsList s sub = true := by
  cases s with
  | nil => simpa [containsList] using h
  | cons a as => simp [containsList, h]

theorem containsList_append_left (pre : List Char) {s sub : List Char}
    (h : containsList s sub = true) : containsList (pre ++ s) sub = true := by
  induction pre with
  | nil => simpa using h
  | cons a as ih =>
    simp only [List.cons_append, containsList, Bool.or_eq_true]
    exact Or.inr ih

theorem containsList_self_append (sub t : List Char) :
    containsList (sub ++ t) sub = true :=
  containsList_of_startsWithList (startsWithList_self_append sub t)

theorem containsList_refl (l : List Char) : containsList l l = true := by
  have h := containsList_self_append l []
  simpa using h

theorem strContains_refl (s : String) : strContains s s = true :=
  containsList_refl s.data

theorem strContains_append_right (s t sub : String)
    (h : strContains t sub = true) : strContains (s ++ t) sub = true := by
  unfold strContains at *
  rw [String.data_append]
  exact containsList_append_left s.data h

theorem startsWithList_append_mono {s : List Char} (t : List Char) {sub : List Char}
    (h : startsWithList s sub = true) : startsWithList (s ++ t) sub = true := by
  induction sub generalizing s with
  | nil => exact startsWithList_nil _
  | cons b bs ih =>
    cases s with
    | nil => simp [startsWithList] at h
    | cons a as =>
      simp only [startsWithList, Bool.and_eq_true] at h
      simp only [List.cons_append, startsWithList, Bool.and_eq_true]
      exact ⟨h.1, ih h.2⟩

theorem containsList_append_mono {s : List Char} (t : List Char) {sub : List Char}
    (h : containsList s sub = true) : containsList (s ++ t) sub = true := by
  induction s with
  | nil =>
    cases sub with
    | nil => simpa using containsList_nil t
    | cons b bs => simp [containsList, startsWithList] at h
  | cons a as ih =>
    simp only [containsList, Bool.or_eq_true] at h
    rcases h with h | h
    · exact containsList_of_startsWithList (startsWithList_append_mono t h)
    · simp only [List.cons_append, containsList, Bool.or_eq_true]
      exact Or.inr (ih h)

theorem strContains_append_left (s t sub : String)
    (h : strContains s sub = true) : strContains (s ++ t) sub = true := by
  unfold strContains at *
  rw [String.data_append]
  exact containsList_append_mono t.data h

theorem append_ne_empty_of_left {s : String} (t : String) (h : s ≠ "") :
    s ++ t ≠ "" := by
  intro heq
  apply h
  have hd : s.data ++ t.data = [] := by
    have hc := congrArg String.data heq
    rwa [String.data_append] at hc
  have hs : s.data = [] := (List.append_eq_nil.mp hd).1
  cases s with
  | mk data => cases hs; rfl

/-! ## Lemmas about header-object merging -/

theorem lookupHeader_objSet_self (o : List (String × String)) (k v : String) :
    lookupHeader (objSet o k v) k = some v := by
  induction o with
  | nil => simp [objSet, lookupHeader]
  | cons kv rest ih =>
    by_cases h : kv.1 = k
    · simp [objSet, lookupHeader, h]
    · simp [objSet, lookupHeader, h, ih]

theorem lookupHeader_objSet_ne (o : List (String × String)) (k v k1 : String)
    (h : k1 ≠ k) : lookupHeader (objSet o k v) k1 = lookupHeader o k1 := by
  have hne : k ≠ k1 := fun he => h he.symm
  induction o with
  | nil => simp [objSet, lookupHeader, hne]
  | cons kv rest ih =>
    obtain ⟨k0, v0⟩ := kv
    by_cases hk : k0 = k
    · subst hk
      simp [objSet, lookupHeader, hne]
    · by_cases hk1 : k0 = k1
      · simp [objSet, lookupHeader, hk, hk1, h]
      · simp [objSet, lookupHeader, hk, hk1, ih]

theorem lookupHeader_objSet_isSome (o : List (String × String)) (k v k1 : String)
    (h : (lookupHeader o k1).isSome = true) :
    (lookupHeader (objSet o k v) k1).isSome = true := by
  by_cases hk : k1 = k
  · subst hk; simp [lookupHeader_objSet_self]
  · rwa [lookupHeader_objSet_ne o k v k1 hk]

theorem lookupHeader_foldSet_not_mem (hs : List (String × String))
    (base : List (String × String)) (k : String)
    (h : k ∉ hs.map Prod.fst) :
    lookupHeader (hs.foldl (fun o kv => objSet o kv.1 kv.2) base) k
      = lookupHeader base k := by
  induction hs generalizing base with
  | nil => rfl
  | cons kv rest ih =>
    simp only [List.map_cons, List.mem_cons, not_or] at h
    rw [List.foldl_cons, ih (objSet base kv.1 kv.2) h.2,
      lookupHeader_objSet_ne base kv.1 kv.2 k h.1]

theorem lookupHeader_foldSet_isSome (hs : List (String × String))
    (base : List (String × String)) (k : String)
    (h : (lookupHeader base k).isSome = true) :
    (lookupHeader (hs.foldl (fun o kv => objSet o kv.1 kv.2) base) k).isSome = true := by
  induction hs generalizing base with
  | nil => exact h
  | cons kv rest ih =>
    rw [List.foldl_cons]
    exact ih _ (lookupHeader_objSet_isSome base kv.1 kv.2 k h)

theorem lookupHeader_foldSet_mem (hs : List (String × String))
    (base : List (String × String)) (k v : String)
    (hnd : (hs.map Prod.fst).Nodup) (hmem : (k, v) ∈ hs) :
    lookupHeader (hs.foldl (fun o kv => objSet o kv.1 kv.2) base) k = some v := by
  induction hs generalizing base with
  | nil => cases hmem
  | cons kv rest ih =>
    simp only [List.map_cons, List.nodup_cons] at hnd
    rcases List.mem_cons.mp hmem with heq | hmem2
    · subst heq
      rw [List.foldl_cons,
        lookupHeader_foldSet_not_mem rest (objSet base k v) k hnd.1,
        lookupHeader_objSet_self]
    · rw [List.foldl_cons]
      exact ih _ hnd.2 hmem2

/-! ## Claim theorems -/

/-- C1: for every caught failure with a non-empty underlying message,
`handleError` builds the message as the context label, a colon and space,
then the underlying message, and picks the code by substring precedence:
"timeout" first, then "401"/"Unauthorized", then "network"/"fetch",
otherwise the generic code.  (Amended: an empty underlying message is
replaced by "Unknown error" rather than kept verbatim.) -/
theorem handleError_message_and_precedence (ctx msg : String) (h : msg ≠ "") :
    (handleError msg ctx).message = ctx ++ ": " ++ msg
    ∧ (strContains msg "timeout" = true →
        (handleError msg ctx).code = "TIMEOUT_ERROR")
    ∧ (strContains msg "timeout" = false →
        (strContains msg "401" || strContains msg "Unauthorized") = true →
        (handleError msg ctx).code = "AUTH_ERROR")
    ∧ (strContains msg "timeout" = false →
        (strContains msg "401" || strContains msg "Unauthorized") = false →
        (strContains msg "network" || strContains msg "fetch") = true →
        (handleError msg ctx).code = "NETWORK_ERROR")
    ∧ (strContains msg "timeout" = false →
        (strContains msg "401" || strContains msg "Unauthorized") = false →
        (strContains msg "network" || strContains msg "fetch") = false →
        (handleError msg ctx).code = "AGENTVINE_ERROR") := by
  refine ⟨by simp [handleError, h], ?_, ?_, ?_, ?_⟩
  · intro h1
    simp [handleError, h1]
  · intro h1 h2
    simp [handleError, h1, h2]
  · intro h1 h2 h3
    simp [handleError, h1, h2, h3]
  · intro h1 h2 h3
    simp [handleError, h1, h2, h3]

/-- C1 witness: a message containing both "timeout" and "401" is classified
as a timeout error, and the message is the context, colon-space, and the
underlying message. -/
theorem handleError_message_and_precedence_witness :
    (handleError "Request timeout with 401" "Failed to get offers").message
      = "Failed to get offers: Request timeout with 401"
    ∧ (handleError "Request timeout with 401" "Failed to get offers").code
      = "TIMEOUT_ERROR" :=
  ⟨(handleError_message_and_precedence "Failed to get offers"
      "Request timeout with 401" (by decide)).1,
   (handleError_message_and_precedence "Failed to get offers"
      "Request timeout with 401" (by decide)).2.1 (by decide)⟩

/-- C1 counterexample: for a caught failure whose underlying message is
empty, the built message is not the context, colon-space, and the (empty)
underlying message: the code substitutes "Unknown error". -/
theorem handleError_empty_message_cex :
    handleError "" "Failed to get offers"
      = { code := "AGENTVINE_ERROR",
          message := "Failed to get offers: Unknown error" }
    ∧ (handleError "" "Failed to get offers").message
      ≠ "Failed to get offers" ++ ": " ++ "" := by
  decide

theorem requestMethod_nonOk_error_field (cfg : AgentVineConfig) (ctx : String)
    (resp : Response) (hok : resp.okFlag = false) (s : String)
    (hf : resp.body.getField "error" = some (Json.str s)) (hs : s ≠ "") :
    requestMethod cfg ctx (FetchResult.ok resp) = .error (handleError s ctx)
    ∧ strContains (handleError s ctx).message s = true := by
  constructor
  · simp [requestMethod, makeRequest, hok, errBodyMessage, hf, jsOrString,
      jsTruthy, jsToString, hs]
  · have hmsg : (handleError s ctx).message = ctx ++ ": " ++ s := by
      simp [handleError, hs]
    rw [hmsg]
    exact strContains_append_right (ctx ++ ": ") s s (strContains_refl s)

theorem requestMethod_nonOk_no_field (cfg : AgentVineConfig) (ctx : String)
    (resp : Response) (hok : resp.okFlag = false)
    (hf : resp.body.getField "error" = none) :
    requestMethod cfg ctx (FetchResult.ok resp)
      = .error (handleError
          ("HTTP " ++ toString resp.status ++ ": " ++ resp.statusText) ctx)
    ∧ strContains (handleError
        ("HTTP " ++ toString resp.status ++ ": " ++ resp.statusText) ctx).message
        (toString resp.status) = true
    ∧ strContains (handleError
        ("HTTP " ++ toString resp.status ++ ": " ++ resp.statusText) ctx).message
        resp.statusText = true := by
  have h1 : ("HTTP " ++ toString resp.status : String) ≠ "" :=
    append_ne_empty_of_left (toString resp.status) (by decide)
  have h2 : ("HTTP " ++ toString resp.status ++ ": " : String) ≠ "" :=
    append_ne_empty_of_left ": " h1
  have hfb : ("HTTP " ++ toString resp.status ++ ": " ++ resp.statusText : String) ≠ "" :=
    append_ne_empty_of_left resp.statusText h2
  have hmsg : (handleError
      ("HTTP " ++ toString resp.status ++ ": " ++ resp.statusText) ctx).message
      = ctx ++ ": " ++ ("HTTP " ++ toString resp.status ++ ": " ++ resp.statusText) := by
    simp [handleError, hfb]
  refine ⟨?_, ?_, ?_⟩
  · simp [requestMethod, makeRequest, hok, errBodyMessage, hf, jsOrString]
  · rw [hmsg]
    refine strContains_append_right (ctx ++ ": ") _ _ ?_
    refine strContains_append_left _ resp.statusText _ ?_
    refine strContains_append_left _ ": " _ ?_
    exact strContains_append_right "HTTP " _ _ (strContains_refl _)
  · rw [hmsg]
    refine strContains_append_right (ctx ++ ": ") _ _ ?_
    exact strContains_append_right _ _ _ (strContains_refl _)

/-- C2: on every non-2xx response, getOffers rejects with a structured
error whose message contains the body's non-empty `error` field text when
present, and otherwise contains the HTTP status code and status text; and
the same holds for testConnection. -/
theorem nonOk_error_body_contract (cfg : AgentVineConfig) (resp : Response)
    (hok : resp.okFlag = false) :
    (∀ s : String, resp.body.getField "error" = some (Json.str s) → s ≠ "" →
      (∃ e, getOffers cfg (FetchResult.ok resp) = .error e
        ∧ strContains e.message s = true)
      ∧ (∃ e, testConnection cfg (FetchResult.ok resp) = .error e
        ∧ strContains e.message s = true))
    ∧ (resp.body.getField "error" = none →
      (∃ e, getOffers cfg (FetchResult.ok resp) = .error e
        ∧ strContains e.message (toString resp.status) = true
        ∧ strContains e.message resp.statusText = true)
      ∧ (∃ e, testConnection cfg (FetchResult.ok resp) = .error e
        ∧ strContains e.message (toString resp.status) = true
        ∧ strContains e.message resp.statusText = true)) := by
  constructor
  · intro s hf hs
    exact ⟨⟨handleError s "Failed to get offers",
        (requestMethod_nonOk_error_field cfg "Failed to get offers" resp hok s hf hs).1,
        (requestMethod_nonOk_error_field cfg "Failed to get offers" resp hok s hf hs).2⟩,
      ⟨handleError s "Connection test failed",
        (requestMethod_nonOk_error_field cfg "Connection test failed" resp hok s hf hs).1,
        (requestMethod_nonOk_error_field cfg "Connection test failed" resp hok s hf hs).2⟩⟩
  · intro hf
    exact ⟨⟨handleError _ "Failed to get offers",
        (requestMethod_nonOk_no_field cfg "Failed to get offers" resp hok hf).1,
        (requestMethod_nonOk_no_field cfg "Failed to get offers" resp hok hf).2.1,
        (requestMethod_nonOk_no_field cfg "Failed to get offers" resp hok hf).2.2⟩,
      ⟨handleError _ "Connection test failed",
        (requestMethod_nonOk_no_field cfg "Connection test failed" resp hok hf).1,
        (requestMethod_nonOk_no_field cfg "Connection test failed" resp hok hf).2.1,
        (requestMethod_nonOk_no_field cfg "Connection test failed" resp hok hf).2.2⟩⟩

/-- C2 witness: a 401 response with body field `error` set to "bad creds"
makes getOffers and testConnection reject with messages containing
"bad creds". -/
theorem nonOk_error_body_contract_witness :
    (∃ e, getOffers { agentId := "a", agentSecretKey := "k" }
        (FetchResult.ok
          { status := 401
            statusText := "Unauthorized"
            body := Json.obj [("error", Json.str "bad creds")] }) = .error e
      ∧ strContains e.message "bad creds" = true)
    ∧ (∃ e, testConnection { agentId := "a", agentSecretKey := "k" }
        (FetchResult.ok
          { status := 401
            statusText := "Unauthorized"
            body := Json.obj [("error", Json.str "bad creds")] }) = .error e
      ∧ strContains e.message "bad creds" = true) :=
  (nonOk_error_body_contract { agentId := "a", agentSecretKey := "k" }
    { status := 401
      statusText := "Unauthorized"
      body := Json.obj [("error", Json.str "bad creds")] }
    (by decide)).1 "bad creds" rfl (by decide)

/-- C3: with a truthy configured timeout t, every makeRequest call arms the
abort timer for t ms at call start, passes the abort signal to the fetch,
and disarms the timer on both the success and the failure path; and when
the transport is aborted (the AbortError outcome), the call rejects with a
timeout-classified structured error whose message contains t. -/
theorem makeRequest_timeout_contract (cfg : AgentVineConfig) (t : Nat)
    (ht : cfg.timeout = some t) (ht0 : t ≠ 0) :
    (∀ fr, (makeRequest cfg fr).1 =
      [TransportAction.armTimer t, TransportAction.fetchStart true,
       TransportAction.clearTimer])
    ∧ (∀ m, ∃ e,
        getOffers cfg (FetchResult.err { name := "AbortError", message := m })
          = .error e
        ∧ e.code = "TIMEOUT_ERROR"
        ∧ strContains e.message (toString t) = true) := by
  have het : effectiveTimeout cfg = t := by simp [effectiveTimeout, ht, ht0]
  constructor
  · intro fr
    cases fr <;> simp [makeRequest, het]
  · intro m
    have hmr : (makeRequest cfg
        (FetchResult.err { name := "AbortError", message := m })).2
        = .error { name := "Error"
                   message := "Request timeout after " ++ toString t ++ "ms" } := by
      simp [makeRequest, het]
    have hmsgne : ("Request timeout after " ++ toString t ++ "ms" : String) ≠ "" :=
      append_ne_empty_of_left "ms"
        (append_ne_empty_of_left (toString t) (by decide))
    have hcont : strContains
        ("Request timeout after " ++ toString t ++ "ms") "timeout" = true := by
      refine strContains_append_left _ "ms" _ ?_
      exact strContains_append_left _ (toString t) _ (by decide)
    have hcontT : strContains
        ("Request timeout after " ++ toString t ++ "ms") (toString t) = true := by
      refine strContains_append_left _ "ms" _ ?_
      exact strContains_append_right "Request timeout after " _ _ (strContains_refl _)
    refine ⟨handleError ("Request timeout after " ++ toString t ++ "ms")
        "Failed to get offers", ?_, ?_, ?_⟩
    · simp [getOffers, requestMethod, hmr]
    · simp [handleError, hcont]
    · have hmsg : (handleError ("Request timeout after " ++ toString t ++ "ms")
          "Failed to get offers").message
          = "Failed to get offers" ++ ": "
            ++ ("Request timeout after " ++ toString t ++ "ms") := by
        simp [handleError, hmsgne]
      rw [hmsg]
      exact strContains_append_right _ _ _ hcontT

/-- C3 witness: with a configured timeout of 5000 ms, the abort outcome
rejects with a TIMEOUT_ERROR whose message contains 5000. -/
theorem makeRequest_timeout_contract_witness :
    ∃ e, getOffers { agentId := "a", agentSecretKey := "k", timeout := some 5000 }
        (FetchResult.err { name := "AbortError", message := "The operation was aborted" })
        = .error e
      ∧ e.code = "TIMEOUT_ERROR"
      ∧ strContains e.message (toString (5000 : Nat)) = true :=
  (makeRequest_timeout_contract
    { agentId := "a", agentSecretKey := "k", timeout := some 5000 }
    5000 rfl (by decide)).2 "The operation was aborted"

/-- C4: construction (in both client variants) throws iff the agent
identifier or the agent secret is empty, regardless of every other
configuration field, and when it throws, no background activity (neither
the verification nor the health-check timer) has been started. -/
theorem constructor_credential_check (cfg : AgentVineConfig) :
    ((∃ m, (constructClient cfg).2 = .error m)
      ↔ cfg.agentId = "" ∨ cfg.agentSecretKey = "")
    ∧ (cfg.agentId = "" ∨ cfg.agentSecretKey = "" → (constructClient cfg).1 = [])
    ∧ ((∃ m, constructClientPlain cfg = .error m)
      ↔ cfg.agentId = "" ∨ cfg.agentSecretKey = "") := by
  by_cases h1 : cfg.agentId = "" <;> by_cases h2 : cfg.agentSecretKey = "" <;>
    simp [constructClient, constructClientPlain, h1, h2]

/-- C4 witness: an empty agent identifier makes both constructors throw,
with no startup action recorded. -/
theorem constructor_credential_check_witness :
    (∃ m, (constructClient { agentId := "", agentSecretKey := "k" }).2 = .error m)
    ∧ (constructClient { agentId := "", agentSecretKey := "k" }).1 = []
    ∧ (∃ m, constructClientPlain { agentId := "", agentSecretKey := "k" } = .error m) :=
  ⟨(constructor_credential_check { agentId := "", agentSecretKey := "k" }).1.mpr
      (Or.inl rfl),
   (constructor_credential_check { agentId := "", agentSecretKey := "k" }).2.1
      (Or.inl rfl),
   (constructor_credential_check { agentId := "", agentSecretKey := "k" }).2.2.mpr
      (Or.inl rfl)⟩

/-- C5: base URL precedence, amended: a non-empty explicit base URL always
wins; an empty explicit base URL is treated like an absent one (JS
truthiness), falling through to the environment switch, where `local` maps
to localhost, `development` to the dev host, and any other or absent
environment to the production host. -/
theorem resolveBaseUrl_precedence (cfg : AgentVineConfig) :
    (∀ u, cfg.baseUrl = some u → u ≠ "" → resolveBaseUrl cfg = u)
    ∧ (cfg.baseUrl = none ∨ cfg.baseUrl = some "" →
        resolveBaseUrl cfg = environmentBaseUrl cfg.environment)
    ∧ environmentBaseUrl (some "local") = "http://localhost:3001"
    ∧ environmentBaseUrl (some "development") = "https://dev-api.agentvine.dev"
    ∧ (∀ env, env ≠ "local" → env ≠ "development" →
        environmentBaseUrl (some env) = "https://api.agentvine.dev")
    ∧ environmentBaseUrl none = "https://api.agentvine.dev" := by
  refine ⟨?_, ?_, by decide, by decide, ?_, by decide⟩
  · intro u hu hne
    simp [resolveBaseUrl, hu, hne]
  · rintro (h | h) <;> simp [resolveBaseUrl, h]
  · intro env h1 h2
    simp [environmentBaseUrl, h1, h2]

/-- C5 witness: a non-empty explicit base URL wins, and an unrecognised
environment value resolves to the production host. -/
theorem resolveBaseUrl_precedence_witness :
    resolveBaseUrl { agentId := "a"
                     agentSecretKey := "k"
                     baseUrl := some "https://x.example"
                     environment := some "local" }
      = "https://x.example"
    ∧ environmentBaseUrl (some "staging") = "https://api.agentvine.dev" :=
  ⟨(resolveBaseUrl_precedence { agentId := "a"
                                agentSecretKey := "k"
                                baseUrl := some "https://x.example"
                                environment := some "local" }).1
      "https://x.example" rfl (by decide),
   (resolveBaseUrl_precedence { agentId := "a", agentSecretKey := "k" }).2.2.2.2.1
      "staging" (by decide) (by decide)⟩

/-- C5 counterexample: an explicit base URL that is the empty string is
present but does not win: the constructor's truthiness test skips it and
the environment switch decides. -/
theorem resolveBaseUrl_empty_explicit_cex :
    resolveBaseUrl { agentId := "a"
                     agentSecretKey := "k"
                     baseUrl := some ""
                     environment := some "local" } = "http://localhost:3001"
    ∧ resolveBaseUrl { agentId := "a"
                       agentSecretKey := "k"
                       baseUrl := some ""
                       environment := some "local" } ≠ "" := by
  decide

/-- C6: every outbound call's header object carries the JSON content type
and the two credential headers verbatim; a caller-supplied header of a
different name never removes them, and a caller-supplied header of the same
name overrides the default value (caller headers are a JS object, so their
keys are distinct). -/
theorem makeRequestHeaders_contract (cfg : AgentVineConfig)
    (hs : List (String × String)) :
    ((lookupHeader (makeRequestHeaders cfg hs) "Content-Type").isSome = true
      ∧ (lookupHeader (makeRequestHeaders cfg hs) "X-Agent-Id").isSome = true
      ∧ (lookupHeader (makeRequestHeaders cfg hs) "X-Agent-Secret-Key").isSome = true)
    ∧ ("Content-Type" ∉ hs.map Prod.fst →
        lookupHeader (makeRequestHeaders cfg hs) "Content-Type" = some "application/json")
    ∧ ("X-Agent-Id" ∉ hs.map Prod.fst →
        lookupHeader (makeRequestHeaders cfg hs) "X-Agent-Id" = some cfg.agentId)
    ∧ ("X-Agent-Secret-Key" ∉ hs.map Prod.fst →
        lookupHeader (makeRequestHeaders cfg hs) "X-Agent-Secret-Key"
          = some cfg.agentSecretKey)
    ∧ ((hs.map Prod.fst).Nodup → ∀ k v, (k, v) ∈ hs →
        lookupHeader (makeRequestHeaders cfg hs) k = some v) := by
  unfold makeRequestHeaders
  have hbase1 : lookupHeader
      [("Content-Type", "application/json"), ("X-Agent-Id", cfg.agentId),
       ("X-Agent-Secret-Key", cfg.agentSecretKey)] "Content-Type"
      = some "application/json" := rfl
  have hbase2 : lookupHeader
      [("Content-Type", "application/json"), ("X-Agent-Id", cfg.agentId),
       ("X-Agent-Secret-Key", cfg.agentSecretKey)] "X-Agent-Id"
      = some cfg.agentId := rfl
  have hbase3 : lookupHeader
      [("Content-Type", "application/json"), ("X-Agent-Id", cfg.agentId),
       ("X-Agent-Secret-Key", cfg.agentSecretKey)] "X-Agent-Secret-Key"
      = some cfg.agentSecretKey := rfl
  refine ⟨⟨?_, ?_, ?_⟩, ?_, ?_, ?_, ?_⟩
  · exact lookupHeader_foldSet_isSome hs _ _ (by rw [hbase1]; rfl)
  · exact lookupHeader_foldSet_isSome hs _ _ (by rw [hbase2]; rfl)
  · exact lookupHeader_foldSet_isSome hs _ _ (by rw [hbase3]; rfl)
  · intro h
    rw [lookupHeader_foldSet_not_mem hs _ _ h, hbase1]
  · intro h
    rw [lookupHeader_foldSet_not_mem hs _ _ h, hbase2]
  · intro h
    rw [lookupHeader_foldSet_not_mem hs _ _ h, hbase3]
  · intro hnd k v hmem
    exact lookupHeader_foldSet_mem hs _ k v hnd hmem

/-- C6 witness: with caller headers overriding the content type and adding
a trace header, the credential headers survive with the configured values
and the same-name header is replaced by the caller's value. -/
theorem makeRequestHeaders_contract_witness :
    lookupHeader (makeRequestHeaders { agentId := "agent-1", agentSecretKey := "sek" }
      [("Content-Type", "text/plain"), ("X-Trace", "t1")]) "X-Agent-Id" = some "agent-1"
    ∧ lookupHeader (makeRequestHeaders { agentId := "agent-1", agentSecretKey := "sek" }
      [("Content-Type", "text/plain"), ("X-Trace", "t1")]) "Content-Type" = some "text/plain"
    ∧ (lookupHeader (makeRequestHeaders { agentId := "agent-1", agentSecretKey := "sek" }
      [("Content-Type", "text/plain"), ("X-Trace", "t1")]) "X-Agent-Secret-Key").isSome = true :=
  ⟨(makeRequestHeaders_contract { agentId := "agent-1", agentSecretKey := "sek" }
      [("Content-Type", "text/plain"), ("X-Trace", "t1")]).2.2.1 (by decide),
   (makeRequestHeaders_contract { agentId := "agent-1", agentSecretKey := "sek" }
      [("Content-Type", "text/plain"), ("X-Trace", "t1")]).2.2.2.2 (by decide)
      "Content-Type" "text/plain" (by decide),
   (makeRequestHeaders_contract { agentId := "agent-1", agentSecretKey := "sek" }
      [("Content-Type", "text/plain"), ("X-Trace", "t1")]).1.2.2⟩

/-- C7: on every 2xx response, getOffers and testConnection return the
parsed JSON response body unmodified (identity pass-through: no reordering,
renaming, or filtering). -/
theorem success_passthrough (cfg : AgentVineConfig) (resp : Response)
    (h1 : 200 ≤ resp.status) (h2 : resp.status < 300) :
    getOffers cfg (FetchResult.ok resp) = .ok resp.body
    ∧ testConnection cfg (FetchResult.ok resp) = .ok resp.body := by
  have hok : resp.okFlag = true := by simp [Response.okFlag, h1, h2]
  constructor <;> simp [getOffers, testConnection, requestMethod, makeRequest, hok]

/-- C7 witness: a 200 response body with one offer comes back exactly. -/
theorem success_passthrough_witness :
    getOffers { agentId := "a", agentSecretKey := "k" }
      (FetchResult.ok
        { status := 200
          statusText := "OK"
          body := Json.obj [("success", Json.bool true),
            ("offers", Json.arr [Json.obj [("id", Json.num 1), ("title", Json.str "X")]])] })
      = .ok (Json.obj [("success", Json.bool true),
          ("offers", Json.arr [Json.obj [("id", Json.num 1), ("title", Json.str "X")]])])
    ∧ testConnection { agentId := "a", agentSecretKey := "k" }
      (FetchResult.ok
        { status := 200
          statusText := "OK"
          body := Json.obj [("success", Json.bool true),
            ("offers", Json.arr [Json.obj [("id", Json.num 1), ("title", Json.str "X")]])] })
      = .ok (Json.obj [("success", Json.bool true),
          ("offers", Json.arr [Json.obj [("id", Json.num 1), ("title", Json.str "X")]])]) :=
  success_passthrough { agentId := "a", agentSecretKey := "k" }
    { status := 200
      statusText := "OK"
      body := Json.obj [("success", Json.bool true),
        ("offers", Json.arr [Json.obj [("id", Json.num 1), ("title", Json.str "X")]])] }
    (by decide) (by decide)

/-- C8: verifyConnection is total over every outcome of testConnection (no
exception escapes to the constructor): a rejection, or a success without a
truthy agent, leaves the client disconnected with a CONNECTION_FAILED error
recorded and fires only the failure callback (when configured); a success
with truthy success and agent fields marks the client connected, stores the
agent, clears the error and fires only the success callback. -/
theorem verifyConnection_outcomes (cfg : AgentVineConfig) (st : ClientState)
    (tc : Except SDKError Json) :
    (∀ e, tc = .error e →
      (verifyConnection cfg st tc).1.isConnected = false
      ∧ (∃ m, (verifyConnection cfg st tc).1.connectionError
          = some { code := "CONNECTION_FAILED", message := m })
      ∧ (verifyConnection cfg st tc).2
          = { verified := false, failed := cfg.onConnectionFailed })
    ∧ (∀ body, tc = .ok body →
        (jsTruthy ((body.getField "success").getD .null)
          && jsTruthy ((body.getField "agent").getD .null)) = true →
        (verifyConnection cfg st tc).1.isConnected = true
        ∧ (verifyConnection cfg st tc).1.agent = body.getField "agent"
        ∧ (verifyConnection cfg st tc).1.connectionError = none
        ∧ (verifyConnection cfg st tc).2
            = { verified := cfg.onConnectionVerified, failed := false })
    ∧ (∀ body, tc = .ok body →
        (jsTruthy ((body.getField "success").getD .null)
          && jsTruthy ((body.getField "agent").getD .null)) = false →
        (verifyConnection cfg st tc).1.isConnected = false
        ∧ (∃ m, (verifyConnection cfg st tc).1.connectionError
            = some { code := "CONNECTION_FAILED", message := m })
        ∧ (verifyConnection cfg st tc).2
            = { verified := false, failed := cfg.onConnectionFailed }) := by
  refine ⟨?_, ?_, ?_⟩
  · rintro e rfl
    exact ⟨rfl, ⟨_, rfl⟩, rfl⟩
  · rintro body rfl hcond
    refine ⟨?_, ?_, ?_, ?_⟩ <;> simp [verifyConnection, hcond]
  · rintro body rfl hcond
    have hred : verifyConnection cfg st (.ok body)
        = verifyCatch cfg st
            (jsOrString (body.getField "message") "Connection verification failed") := by
      simp [verifyConnection, hcond]
    rw [hred]
    exact ⟨rfl, ⟨_, rfl⟩, rfl⟩

/-- C8 witness: a rejected testConnection leaves the client disconnected
with a CONNECTION_FAILED error and fires the configured failure callback. -/
theorem verifyConnection_outcomes_witness :
    (verifyConnection { agentId := "a", agentSecretKey := "k", onConnectionFailed := true }
      { isConnected := false
        connectionError := none
        agent := none
        lastHealthCheck := none
        healthCheckInterval := some 1
        initialProbePending := true }
      (.error { code := "AGENTVINE_ERROR",
                message := "Connection test failed: HTTP 500: Internal Server Error" })).1.isConnected = false
    ∧ (∃ m, (verifyConnection { agentId := "a", agentSecretKey := "k", onConnectionFailed := true }
      { isConnected := false
        connectionError := none
        agent := none
        lastHealthCheck := none
        healthCheckInterval := some 1
        initialProbePending := true }
      (.error { code := "AGENTVINE_ERROR",
                message := "Connection test failed: HTTP 500: Internal Server Error" })).1.connectionError
          = some { code := "CONNECTION_FAILED", message := m })
    ∧ (verifyConnection { agentId := "a", agentSecretKey := "k", onConnectionFailed := true }
      { isConnected := false
        connectionError := none
        agent := none
        lastHealthCheck := none
        healthCheckInterval := some 1
        initialProbePending := true }
      (.error { code := "AGENTVINE_ERROR",
                message := "Connection test failed: HTTP 500: Internal Server Error" })).2
        = { verified := false, failed := true } :=
  (verifyConnection_outcomes { agentId := "a", agentSecretKey := "k", onConnectionFailed := true }
    { isConnected := false
      connectionError := none
      agent := none
      lastHealthCheck := none
      healthCheckInterval := some 1
      initialProbePending := true }
    (.error { code := "AGENTVINE_ERROR",
              message := "Connection test failed: HTTP 500: Internal Server Error" })).1
    { code := "AGENTVINE_ERROR",
      message := "Connection test failed: HTTP 500: Internal Server Error" } rfl

/-- C9 (amended): destroy is idempotent — a second call changes nothing and
throws nothing — and leaves no periodic timer, and after destroy no
periodic-probe tick mutates any state; however the one-shot initial probe
scheduled at construction is not cancelled by destroy and may still mutate
the connectivity state afterwards (see the counterexample). -/
theorem destroy_idempotent_interval_stopped (st : ClientState) :
    destroy (destroy st) = destroy st
    ∧ (destroy st).healthCheckInterval = none
    ∧ (∀ cfg now fr, clientStep cfg (destroy st) (ClientEvent.intervalTick now fr)
        = destroy st) := by
  have hnone : (destroy st).healthCheckInterval = none := by
    cases h : st.healthCheckInterval <;> simp [destroy, h]
  have hid : destroy (destroy st) = destroy st := by
    cases h : st.healthCheckInterval <;> simp [destroy, h]
  refine ⟨hid, hnone, ?_⟩
  intro cfg now fr
  simp [clientStep, hnone]

/-- C9 counterexample: after destroy returns (no periodic timer left), the
still-pending one-shot initial probe fires, fails, and flips the connected
flag — background activity mutates the connectivity state after destroy. -/
theorem destroy_not_frozen_cex :
    (destroy { isConnected := true
               connectionError := none
               agent := none
               lastHealthCheck := none
               healthCheckInterval := some 1
               initialProbePending := true }).healthCheckInterval = none
    ∧ (destroy { isConnected := true
                 connectionError := none
                 agent := none
                 lastHealthCheck := none
                 healthCheckInterval := some 1
                 initialProbePending := true }).isConnected = true
    ∧ (clientStep { agentId := "a", agentSecretKey := "k" }
        (destroy { isConnected := true
                   connectionError := none
                   agent := none
                   lastHealthCheck := none
                   healthCheckInterval := some 1
                   initialProbePending := true })
        (ClientEvent.initialProbeFire 5
          (FetchResult.err { name := "TypeError", message := "network request failed" }))).isConnected
      = false := by
  decide

/-- C10: makeRequest applies the configured timeout through a JS falsy
default: a configured timeout of 0 (or an absent one) is replaced by the
10000 ms default when arming the abort timer, while any non-zero configured
timeout is used as given. -/
theorem timeout_falsy_default (cfg : AgentVineConfig) :
    (cfg.timeout = some 0 ∨ cfg.timeout = none →
      effectiveTimeout cfg = 10000
      ∧ ∀ fr, (makeRequest cfg fr).1 =
          [TransportAction.armTimer 10000, TransportAction.fetchStart true,
           TransportAction.clearTimer])
    ∧ (∀ t, cfg.timeout = some t → t ≠ 0 → effectiveTimeout cfg = t) := by
  constructor
  · intro h
    have het : effectiveTimeout cfg = 10000 := by
      rcases h with h | h <;> simp [effectiveTimeout, h]
    exact ⟨het, fun fr => by cases fr <;> simp [makeRequest, het]⟩
  · intro t ht ht0
    simp [effectiveTimeout, ht, ht0]

/-- C10 witness: a configured timeout of 0 arms the abort timer for the
10000 ms default. -/
theorem timeout_falsy_default_witness :
    effectiveTimeout { agentId := "a", agentSecretKey := "k", timeout := some 0 } = 10000
    ∧ (makeRequest { agentId := "a", agentSecretKey := "k", timeout := some 0 }
        (FetchResult.err { name := "TypeError", message := "x" })).1
      = [TransportAction.armTimer 10000, TransportAction.fetchStart true,
         TransportAction.clearTimer] :=
  ⟨((timeout_falsy_default { agentId := "a", agentSecretKey := "k", timeout := some 0 }).1
      (Or.inl rfl)).1,
   ((timeout_falsy_default { agentId := "a", agentSecretKey := "k", timeout := some 0 }).1
      (Or.inl rfl)).2 (FetchResult.err { name := "TypeError", message := "x" })⟩

end AgentVine
